import Mathlib

/-!
Verification of the position-state and stop-loss trailing engine of the
`algoone` trading bot. Prices, volumes and profits are modelled as rationals;
Python dictionaries with optionally-present keys become structures with
`Option` fields, and Python truthiness of a numeric value (`None`/`0` falsy)
is made explicit. Each definition mirrors one function of the source tree:
`src/trader/sl_managers.py`, `src/trader/volatility_ladder.py`,
`src/portfolio/total_positions.py`, `src/portfolio/position_state_tracker.py`
and the `manage_trade` caller in `src/trader/trade.py`.
-/

namespace AlgoOne

/-- Python truthiness of an optional number: `None` and `0` are falsy. -/
def qTruthy : Option ℚ → Bool
  | none => false
  | some x => decide (x ≠ 0)

/-- A live tick as consumed by the managers (`tick.bid` / `tick.ask`). -/
structure Tick where
  bid : ℚ
  ask : ℚ
deriving DecidableEq

/-- A cached position dict as used by `sl_trailing_staircase`
(`src/trader/sl_managers.py`): only the two fields it reads, both read with
`.get` defaults, hence `Option`. -/
structure CachedState where
  peak_profit : Option ℚ
  profit_chain : Option (List ℚ)
deriving DecidableEq

/-- The position dict consumed by `simple_manage_sl` and
`sl_trailing_staircase`: `pos["type"]` is the string `"BUY"`/`"SELL"`,
`pos.get("sl")` may be absent. -/
structure SLPos where
  symbol : String
  type : String
  price_open : ℚ
  sl : Option ℚ
deriving DecidableEq

/-- The `config` dict built at the top of `sl_trailing_staircase`
(`src/trader/sl_managers.py` lines 144-152); the `get_autotrade_param`
lookups are external configuration, modelled as the resolved values. -/
structure SLConfig where
  max_loss_decimal : ℚ
  initial_sl_buffer_atr : ℚ
  min_candles_hold : ℕ
  min_ticks_to_hold : ℕ
  trailing_profit_threshold_decimal : ℚ
  atr_multiplier : ℚ
  break_even_offset : ℚ
deriving DecidableEq

/-- `tick.bid if pos_type == "BUY" else tick.ask`, shared by both managers. -/
def price_now_of (pos : SLPos) (tick : Tick) : ℚ :=
  if pos.type == "BUY" then tick.bid else tick.ask

/-- The signed direction-aware profit fraction computed inline in
`sl_trailing_staircase` (line 156 of `src/trader/sl_managers.py`). -/
def pct_profit_of (pos : SLPos) (tick : Tick) : ℚ :=
  if pos.type == "BUY" then (price_now_of pos tick - pos.price_open) / pos.price_open
  else (pos.price_open - price_now_of pos tick) / pos.price_open

/-- `simple_manage_sl` of `src/trader/sl_managers.py` (lines 81-112):
break-even then trail using ATR; returns the recommended stop-loss or `None`.
The Python guard `not current_sl or trail_sl > current_sl` is truthiness on
`current_sl` followed by the strict comparison. -/
def simple_manage_sl (pos : SLPos) (tick : Tick) (atr : ℚ) (config : SLConfig) :
    Option ℚ :=
  let open_price := pos.price_open
  let current_sl := pos.sl
  let price_now := price_now_of pos tick
  let multiplier := config.atr_multiplier
  let break_even_offset := config.break_even_offset
  if pos.type == "BUY" then
    let break_even_trigger := open_price + atr
    if price_now > break_even_trigger then
      let trail_sl := price_now - atr * multiplier
      let trail_sl := max trail_sl (open_price + atr * break_even_offset)
      if !qTruthy current_sl || decide (trail_sl > current_sl.getD 0) then
        some trail_sl
      else none
    else none
  else
    let break_even_trigger := open_price - atr
    if price_now < break_even_trigger then
      let trail_sl := price_now + atr * multiplier
      let trail_sl := min trail_sl (open_price - atr * break_even_offset)
      if !qTruthy current_sl || decide (trail_sl < current_sl.getD 0) then
        some trail_sl
      else none
    else none

/-- `sl_trailing_staircase` of `src/trader/sl_managers.py` (lines 116-202):
the unified trailing state machine. The cached position (peak/profit chain)
and the resolved config are passed explicitly; returns
`(recommended_sl, close_signal)`. The checks appear in source order:
hard max-loss cut first, then the minimum-tick hold, then the ATR buffer
stop, then trailing activation. -/
def sl_trailing_staircase (pos : SLPos) (tick : Tick) (atr : ℚ)
    (cached : CachedState) (config : SLConfig) : Option ℚ × Bool :=
  let pct_profit := pct_profit_of pos tick
  let profit_chain := cached.profit_chain.getD []
  let elapsed_ticks := profit_chain.length
  if pct_profit < -config.max_loss_decimal then (none, true)
  else if elapsed_ticks < config.min_ticks_to_hold then (none, false)
  else
    let atr_buffer_cutoff := -atr * config.initial_sl_buffer_atr / pos.price_open
    if pct_profit < atr_buffer_cutoff then (none, true)
    else if pct_profit > config.trailing_profit_threshold_decimal then
      (simple_manage_sl pos tick atr config, false)
    else (none, false)

/-- An MT5 position object as consumed by `manage_atr_sl`: `pos.type` is the
raw MT5 order-type code (`ORDER_TYPE_BUY = 0`), `pos.sl` a plain float with
`0` meaning unset. -/
structure MTPos where
  symbol : String
  type : ℕ
  price_open : ℚ
  sl : ℚ
deriving DecidableEq

/-- `manage_atr_sl` of `src/trader/sl_managers.py` (lines 239-255): ATR-based
trailing manager that only adjusts if the new stop-loss improves protection
(`not current_sl or new_sl > current_sl` for BUY, mirrored for SELL). -/
def manage_atr_sl (pos : MTPos) (tick : Tick) (atr : ℚ) (config : SLConfig) :
    Option ℚ :=
  let pos_type := if pos.type = 0 then "BUY" else "SELL"
  let current_sl := pos.sl
  let price_now := if pos_type == "BUY" then tick.bid else tick.ask
  let multiplier := config.atr_multiplier
  if pos_type == "BUY" then
    let new_sl := price_now - atr * multiplier
    if current_sl = 0 ∨ new_sl > current_sl then some new_sl else none
  else
    let new_sl := price_now + atr * multiplier
    if current_sl = 0 ∨ new_sl < current_sl then some new_sl else none

/-- One cycle of the caller's acceptance loop (`manage_trade`,
`src/trader/trade.py` lines 1959-1998): the position carries stop-loss `s`,
`simple_manage_sl` is consulted for the tick/ATR observation, and the
recommendation (already filtered for improvement) replaces the stop-loss
when present. -/
def sl_accept_step (pos : SLPos) (config : SLConfig) (s : ℚ) (ta : Tick × ℚ) : ℚ :=
  match simple_manage_sl { pos with sl := some s } ta.1 ta.2 config with
  | some r => r
  | none => s

/-- The ATR extraction at the head of the active `manage_trade`
(`src/trader/trade.py` lines 1868-1870): `pm_result.get("ATR")` when the
dispatch returned anything, then `.get("value")`; both dicts are modelled as
association lists. -/
def manage_trade_atr (pm_result : Option (List (String × List (String × ℚ)))) :
    Option ℚ :=
  match pm_result with
  | none => none
  | some pm =>
    match List.lookup "ATR" pm with
    | none => none
    | some atr_result => List.lookup "value" atr_result

/-- The guarded engine invocation of `manage_trade` (`src/trader/trade.py`
lines 1871-1922): when the extracted ATR is `None` the function returns
early (modelled as `none`, the engine never runs); otherwise the staircase
engine is invoked with the extracted ATR. -/
def manage_trade_step (pm_result : Option (List (String × List (String × ℚ))))
    (pos : SLPos) (tick : Tick) (cached : CachedState) (config : SLConfig) :
    Option (Option ℚ × Bool) :=
  match manage_trade_atr pm_result with
  | none => none
  | some atr => some (sl_trailing_staircase pos tick atr cached config)

/-! ## Position state tracker (`src/portfolio/position_state_tracker.py`) -/

/-- The position dict consumed by the tracker: prices read with `.get` (may
be absent), plus the two enriched fields `profit_chain` / `peak_profit`
created on first observation. -/
structure TrackedPos where
  type : String
  price_open : Option ℚ
  price_current : Option ℚ
  profit_chain : Option (List ℚ)
  peak_profit : Option ℚ
deriving DecidableEq

/-- `calculate_profit_pct` (lines 10-21): direction-aware profit percent,
`0.0` whenever `price_open` or `price_current` is missing or zero — the
guard is Python truthiness (`if entry and current:`), not a missing-key
check alone. -/
def calculate_profit_pct (position : TrackedPos) : ℚ :=
  if qTruthy position.price_open && qTruthy position.price_current then
    let entry := position.price_open.getD 0
    let current := position.price_current.getD 0
    if position.type == "SELL" then (entry - current) / entry * 100
    else (current - entry) / entry * 100
  else 0

/-- Python `round` (banker's rounding: ties go to the even integer). -/
def pyRound (q : ℚ) : ℤ :=
  let f := ⌊q⌋
  let r := q - f
  if r < 1 / 2 then f
  else if 1 / 2 < r then f + 1
  else if f % 2 = 0 then f else f + 1

/-- The Python slice `chain[-k:]`: the last `k` entries, the whole list when
`k = 0` (since `chain[-0:]` is `chain[0:]`). -/
def pyLastSlice (k : ℕ) (l : List ℚ) : List ℚ :=
  if k = 0 then l else l.drop (l.length - k)

/-- The `if not chain or chain[-1] != rounded_profit: chain.append(...)`
step of `update_position_profit_chain` (lines 89-91). -/
def chain_append_dedup (chain : List ℚ) (rounded : ℚ) : List ℚ :=
  if chain.isEmpty || chain.getLast? != some rounded
  then chain ++ [rounded] else chain

/-- The `if len(chain) > max_chain_length: chain = chain[-max_chain_length:]`
step of `update_position_profit_chain` (lines 93-95). -/
def chain_truncate (max_chain_length : ℕ) (chain : List ℚ) : List ℚ :=
  if chain.length > max_chain_length
  then pyLastSlice max_chain_length chain else chain

/-- `update_position_profit_chain` (lines 68-99): update `peak_profit`,
round the current profit percent to the nearest `profit_step` multiple,
append to `profit_chain` only when different from the last entry, then keep
only the `max_chain_length` most recent entries. The in-place dict mutation
becomes a functional update; a missing chain is the empty list (the
initialisation on lines 76-79). -/
def update_position_profit_chain (position : TrackedPos) (profit_step : ℚ)
    (max_chain_length : ℕ) : TrackedPos :=
  let profit_pct := calculate_profit_pct position
  let peak := max (position.peak_profit.getD profit_pct) profit_pct
  let rounded := (pyRound (profit_pct / profit_step) : ℚ) * profit_step
  { position with
    peak_profit := some peak,
    profit_chain := some (chain_truncate max_chain_length
      (chain_append_dedup (position.profit_chain.getD []) rounded)) }

/-- A sequence of tracker updates: between successive calls the data source
rewrites `price_current`; each call is `update_position_profit_chain`. -/
def apply_profit_updates (position : TrackedPos) (prices : List (Option ℚ))
    (profit_step : ℚ) (max_chain_length : ℕ) : TrackedPos :=
  prices.foldl
    (fun p pr =>
      update_position_profit_chain { p with price_current := pr }
        profit_step max_chain_length)
    position

/-! ## Historical merge engine (`src/portfolio/total_positions.py`) -/

/-- One side of the aggregated snapshot produced by
`aggregate_position_data`: every key is always present (a side with no
positions gets sums `0`, `AVG_PRICE = 0`, `CURRENT_PRICE = None`). -/
structure SideSnap where
  size_sum : ℚ
  position_count : ℕ
  avg_price : ℚ
  current_price : Option ℚ
  unrealized_profit : ℚ
  last_position_time : String
  last_position_time_raw : ℚ
deriving DecidableEq

/-- One side of the persisted historical record: a JSON dict whose keys may
individually be missing, hence every field is an `Option`. -/
structure HistSide where
  size_sum : Option ℚ
  position_count : Option ℕ
  avg_price : Option ℚ
  current_price : Option ℚ
  unrealized_profit : Option ℚ
  last_position_time : Option String
  last_position_time_raw : Option ℚ
  profit_record_track : Option ℚ
  loss_record_track : Option ℚ
  profit_goal : Option ℚ
  trailing_profit : Option ℚ
  goal_met : Option Bool
  trailing_crossed : Option Bool
  close_signal : Option Bool
deriving DecidableEq

/-- `if "PROFIT_RECORD_TRACK" not in hist:` initialisation
(`src/portfolio/total_positions.py` lines 246-247). -/
def ensure_prt (snap : SideSnap) (hist : HistSide) : HistSide :=
  if hist.profit_record_track = none
  then { hist with profit_record_track := some snap.unrealized_profit }
  else hist

/-- `if "LOSS_RECORD_TRACK" not in hist:` initialisation (lines 248-249). -/
def ensure_lrt (snap : SideSnap) (hist : HistSide) : HistSide :=
  if hist.loss_record_track = none
  then { hist with loss_record_track := some snap.unrealized_profit }
  else hist

/-- `if "PROFIT_GOAL" not in hist:` initialisation (lines 251-256). -/
def ensure_goal (close_profit_threshold : ℚ) (snap : SideSnap)
    (hist : HistSide) : HistSide :=
  if hist.profit_goal = none
  then
    { hist with
      profit_goal := some (snap.size_sum * snap.avg_price * close_profit_threshold) }
  else hist

/-- `if "TRAILING_PROFIT" not in hist:` initialisation (lines 258-263). -/
def ensure_trail (trailing_profit_threshold : ℚ) (snap : SideSnap)
    (hist : HistSide) : HistSide :=
  if hist.trailing_profit = none
  then
    { hist with
      trailing_profit := some (snap.size_sum * snap.avg_price * trailing_profit_threshold) }
  else hist

/-- The four `if KEY not in hist:` initialisations of `get_total_positions`
(`src/portfolio/total_positions.py` lines 246-263), in source order. -/
def ensure_extreme_keys (close_profit_threshold trailing_profit_threshold : ℚ)
    (snap : SideSnap) (hist : HistSide) : HistSide :=
  ensure_trail trailing_profit_threshold snap
    (ensure_goal close_profit_threshold snap
      (ensure_lrt snap (ensure_prt snap hist)))

/-- The per-side body of the merge loop of `get_total_positions`
(`src/portfolio/total_positions.py` lines 241-324) for a symbol already in
the historical record: ensure the extreme keys, update the running extrema,
overwrite every snapshot-derived field, recompute goal and trailing targets,
then either reset (side fully liquidated) or recompute the flags. The
source's `if not hist:` branch is unreachable because the key
initialisations always leave the dict non-empty, so it has no counterpart
here. In the reset branch the source leaves `CLOSE_SIGNAL` untouched. -/
def merge_copy (close_profit_threshold trailing_profit_threshold : ℚ)
    (snap : SideSnap) (hist : HistSide) : HistSide :=
  { hist with
    profit_record_track :=
      some (max (hist.profit_record_track.getD snap.unrealized_profit)
        snap.unrealized_profit),
    loss_record_track :=
      some (min (hist.loss_record_track.getD snap.unrealized_profit)
        snap.unrealized_profit),
    size_sum := some snap.size_sum,
    position_count := some snap.position_count,
    avg_price := some snap.avg_price,
    current_price := snap.current_price,
    unrealized_profit := some snap.unrealized_profit,
    last_position_time := some snap.last_position_time,
    last_position_time_raw := some snap.last_position_time_raw,
    profit_goal :=
      some (snap.size_sum * snap.avg_price * close_profit_threshold),
    trailing_profit :=
      some (snap.size_sum * snap.avg_price * trailing_profit_threshold) }

/-- The reset-or-flags tail of the merge loop (lines 299-324): reset the
extrema, goals and the two goal flags when the side has fully liquidated
(the source leaves `CLOSE_SIGNAL` untouched there), otherwise recompute
`GOAL_MET`, `TRAILING_CROSSED` and `CLOSE_SIGNAL` from the fresh snapshot
profit against the just-recomputed targets. -/
def merge_flags (snap : SideSnap) (hist : HistSide) : HistSide :=
  if snap.size_sum = 0 then
    { hist with
      profit_record_track := some 0,
      loss_record_track := some 0,
      profit_goal := some 0,
      trailing_profit := some 0,
      goal_met := some false,
      trailing_crossed := some false }
  else
    { hist with
      goal_met := some (decide (snap.unrealized_profit ≥ hist.profit_goal.getD 0)),
      trailing_crossed :=
        some (decide (snap.unrealized_profit ≥ hist.trailing_profit.getD 0)),
      close_signal :=
        some (decide (snap.unrealized_profit ≥ hist.profit_goal.getD 0) &&
          decide (snap.unrealized_profit ≥ hist.trailing_profit.getD 0)) }

def merge_side (close_profit_threshold trailing_profit_threshold : ℚ)
    (snap : SideSnap) (hist : HistSide) : HistSide :=
  merge_flags snap
    (merge_copy close_profit_threshold trailing_profit_threshold snap
      (ensure_extreme_keys close_profit_threshold trailing_profit_threshold
        snap hist))

/-! ## Volatility ladder (`src/trader/volatility_ladder.py`) -/

/-- One timeframe entry of a risk profile; the source reads its single field
`profile[tf]["mean_atr_pct"]`. -/
structure TFEntry where
  mean_atr_pct : ℚ
deriving DecidableEq

/-- A per-symbol risk profile: timeframe key to entry. -/
abbrev RiskProfile := List (String × TFEntry)

/-- The parsed `config/risk_profiles.json`: symbol key to profile; `none`
models an unreadable or unparseable file (the `except` path). -/
abbrev RiskProfilesFile := List (String × RiskProfile)

/-- `load_risk_profile` (lines 10-26): `none` when the file cannot be read
or parsed or parses to a falsy value; otherwise
`profile.get(symbol) or profile.get('defaults')` — the symbol's entry when
truthy (non-empty), else the `'defaults'` entry. -/
def load_risk_profile (file : Option RiskProfilesFile) (symbol : String) :
    Option RiskProfile :=
  match file with
  | none => none
  | some profile =>
    if profile.isEmpty then none
    else
      match List.lookup symbol profile with
      | some p => if p.isEmpty then List.lookup "defaults" profile else some p
      | none => List.lookup "defaults" profile

/-- `calculate_trail` (lines 29-33): direction-aware conversion of a trail
percentage into an absolute stop-loss price. -/
def calculate_trail (open_price trail_pct : ℚ) (pos_type : String) : ℚ :=
  if pos_type == "BUY" then open_price + trail_pct / 100 * open_price
  else open_price - trail_pct / 100 * open_price

/-- The position dict consumed by `trailing_staircase`. -/
structure VPos where
  type : String
  price_open : ℚ
deriving DecidableEq

/-- The `for threshold, trail_to, action in ladder` loop with `break`
(lines 114-123): the first rung whose threshold `move_pct` meets or exceeds
decides; `TAKE_PROFIT` sets the flag, any other action computes the trail
stop via `calculate_trail`. -/
def ladder_walk (move_pct open_price : ℚ) (pos_type : String) :
    List (ℚ × Option ℚ × String) → Option ℚ × Bool
  | [] => (none, false)
  | (threshold, trail_to, action) :: rest =>
    if move_pct ≥ threshold then
      if action == "TAKE_PROFIT" then (none, true)
      else (trail_to.map fun t => calculate_trail open_price t pos_type, false)
    else ladder_walk move_pct open_price pos_type rest

/-- `trailing_staircase` of `src/trader/volatility_ladder.py` (lines 36-125):
load the symbol's risk profile (falsy profile aborts with `(None, False)`),
extract the five `mean_atr_pct` values each divided by `100.0` (a missing
key raises `KeyError`, caught as `(None, False)`), compute the
direction-aware move and multiply it by `100.0`, then walk the ladder. -/
def trailing_staircase (file : Option RiskProfilesFile) (symbol : String)
    (pos : VPos) (tick : Tick) : Option ℚ × Bool :=
  match load_risk_profile file symbol with
  | none => (none, false)
  | some profile =>
    if profile.isEmpty then (none, false)
    else
      match List.lookup "1m" profile, List.lookup "5m" profile,
        List.lookup "15m" profile, List.lookup "1h" profile,
        List.lookup "1d" profile with
      | some m1, some m5, some m15, some h1, some d1 =>
        let one_m_pct := m1.mean_atr_pct / 100
        let five_m_pct := m5.mean_atr_pct / 100
        let fifteen_m_pct := m15.mean_atr_pct / 100
        let one_h_pct := h1.mean_atr_pct / 100
        let one_d_pct := d1.mean_atr_pct / 100
        let pos_type := pos.type
        let open_price := pos.price_open
        let current_price := if pos_type == "BUY" then tick.bid else tick.ask
        let move_pct :=
          (if pos_type == "BUY" then (current_price - open_price) / open_price
           else (open_price - current_price) / open_price) * 100
        ladder_walk move_pct open_price pos_type
          [(one_d_pct, none, "TAKE_PROFIT"),
           (one_h_pct, some fifteen_m_pct, "TRAIL_15M"),
           (fifteen_m_pct, some five_m_pct, "TRAIL_5M"),
           (five_m_pct, some one_m_pct, "TRAIL_1M")]
      | _, _, _, _, _ => (none, false)

/-! ## C10 — zero-price guard of `calculate_profit_pct` -/

/-- C10: for every position whose `price_open` is `0` or absent, or whose
`price_current` is `0` or absent, `calculate_profit_pct` returns exactly `0`
without reaching the division — the guard is truthiness, not only a
missing-key check. -/
theorem C10_zero_price_guard (p : TrackedPos)
    (h : p.price_open = none ∨ p.price_open = some 0 ∨
      p.price_current = none ∨ p.price_current = some 0) :
    calculate_profit_pct p = 0 := by
  unfold calculate_profit_pct
  rcases h with h | h | h | h <;> simp [h, qTruthy]

/-- Witness for C10 at a concrete position with a zero entry price. -/
theorem C10_zero_price_guard_witness :
    (⟨"BUY", some 0, some 101, none, none⟩ : TrackedPos).price_open = some 0 ∧
    calculate_profit_pct ⟨"BUY", some 0, some 101, none, none⟩ = 0 :=
  ⟨rfl, C10_zero_price_guard _ (Or.inr (Or.inl rfl))⟩

/-! ## C4 — there is no pure-trailing branch in `simple_manage_sl` -/

/-- C4 counterexample: a BUY position with `open_price = 100`, `ATR = 10`
and `current_bid = 105 < open_price + ATR` — the claim says the
sub-algorithm recommends the pure trailing stop
`current_bid − multiplier·ATR = 105 − 2·10 = 85`, but `simple_manage_sl`
returns `None`: the `else` branch of the break-even trigger recommends
nothing. -/
theorem C4_pure_trailing_counterexample :
    simple_manage_sl ⟨"EURUSD", "BUY", 100, none⟩ ⟨105, 105⟩ 10
        ⟨1/200, 3/2, 4, 9, 1/1000, 2, 1/10⟩ = none ∧
    simple_manage_sl ⟨"EURUSD", "BUY", 100, none⟩ ⟨105, 105⟩ 10
        ⟨1/200, 3/2, 4, 9, 1/1000, 2, 1/10⟩ ≠
      some (price_now_of ⟨"EURUSD", "BUY", 100, none⟩ ⟨105, 105⟩ - 2 * 10) := by
  have h : simple_manage_sl ⟨"EURUSD", "BUY", 100, none⟩ ⟨105, 105⟩ 10
      ⟨1/200, 3/2, 4, 9, 1/1000, 2, 1/10⟩ = none := by
    norm_num [simple_manage_sl, price_now_of, qTruthy]
  exact ⟨h, by rw [h]; simp⟩

/-- C4 amended: when the break-even trigger is not strictly exceeded
(`current_bid ≤ open_price + ATR` for a BUY, `current_ask ≥ open_price − ATR`
for a SELL), `simple_manage_sl` recommends nothing at all; the sub-algorithm
has no pure-trailing branch. -/
theorem C4_below_trigger_no_recommendation (pos : SLPos) (tick : Tick)
    (atr : ℚ) (config : SLConfig) :
    (pos.type = "BUY" → price_now_of pos tick ≤ pos.price_open + atr →
      simple_manage_sl pos tick atr config = none) ∧
    (pos.type = "SELL" → pos.price_open - atr ≤ price_now_of pos tick →
      simple_manage_sl pos tick atr config = none) := by
  constructor
  · intro ht hle
    unfold simple_manage_sl
    simp [ht, not_lt.mpr hle]
  · intro ht hle
    unfold simple_manage_sl
    simp [ht, not_lt.mpr hle]

/-- Witness for C4's amended claim at the counterexample's input. -/
theorem C4_below_trigger_witness :
    (⟨"EURUSD", "BUY", 100, none⟩ : SLPos).type = "BUY" ∧
    price_now_of ⟨"EURUSD", "BUY", 100, none⟩ ⟨105, 105⟩ ≤ 100 + 10 ∧
    simple_manage_sl ⟨"EURUSD", "BUY", 100, none⟩ ⟨105, 105⟩ 10
      ⟨1/200, 3/2, 4, 9, 1/1000, 2, 1/10⟩ = none :=
  ⟨rfl, by norm_num [price_now_of],
    (C4_below_trigger_no_recommendation _ _ _ _).1 rfl
      (by norm_num [price_now_of])⟩

/-! ## C3 — the warm-up check is not the first transition -/

/-- C3 counterexample: a BUY position still in warm-up
(`elapsed_ticks = 0 < min_ticks_to_hold = 9`) whose loss already exceeds the
hard stop (`pct_profit = −10% < −max_loss_decimal = −0.5%`). The claim says
the engine returns `(no recommendation, close = False)`; the code checks the
hard stop *before* the warm-up hold and returns `close = True`. -/
theorem C3_warmup_counterexample :
    sl_trailing_staircase ⟨"EURUSD", "BUY", 100, none⟩ ⟨90, 90⟩ 10
        ⟨none, none⟩ ⟨1/200, 3/2, 4, 9, 1/1000, 2, 1/10⟩ = (none, true) ∧
    ((⟨none, none⟩ : CachedState).profit_chain.getD []).length <
      (⟨1/200, 3/2, 4, 9, 1/1000, 2, 1/10⟩ : SLConfig).min_ticks_to_hold ∧
    pct_profit_of ⟨"EURUSD", "BUY", 100, none⟩ ⟨90, 90⟩ <
      -(⟨1/200, 3/2, 4, 9, 1/1000, 2, 1/10⟩ : SLConfig).max_loss_decimal := by
  refine ⟨?_, by norm_num, ?_⟩ <;>
    norm_num [sl_trailing_staircase, pct_profit_of, price_now_of]

/-- C3 amended: the warm-up hold is the *second* transition, evaluated after
the hard max-loss cut; whenever the position is in warm-up and the hard stop
has not fired, the engine returns `(none, False)` — in particular the ATR
buffer stop and the trailing branch are gated by the warm-up check. -/
theorem C3_warmup_gates_buffer_and_trailing (pos : SLPos) (tick : Tick)
    (atr : ℚ) (cached : CachedState) (config : SLConfig)
    (hwarm : (cached.profit_chain.getD []).length < config.min_ticks_to_hold)
    (hnohard : -config.max_loss_decimal ≤ pct_profit_of pos tick) :
    sl_trailing_staircase pos tick atr cached config = (none, false) := by
  unfold sl_trailing_staircase
  rw [if_neg (not_lt.mpr hnohard), if_pos hwarm]

/-- Witness for C3's amended claim: warm-up with a small loss above the hard
stop returns `(none, false)`. -/
theorem C3_warmup_witness :
    ((⟨none, none⟩ : CachedState).profit_chain.getD []).length <
      (⟨1/200, 3/2, 4, 9, 1/1000, 2, 1/10⟩ : SLConfig).min_ticks_to_hold ∧
    sl_trailing_staircase ⟨"EURUSD", "BUY", 100, none⟩ ⟨999/10, 999/10⟩ 10
      ⟨none, none⟩ ⟨1/200, 3/2, 4, 9, 1/1000, 2, 1/10⟩ = (none, false) :=
  ⟨by norm_num,
    C3_warmup_gates_buffer_and_trailing _ _ _ _ _ (by norm_num)
      (by norm_num [pct_profit_of, price_now_of])⟩

/-! ## C8 — ATR `None` is guarded by the caller, ATR `0` is not -/

/-- C8 counterexample: `manage_trade` extracts `ATR = 0` (which is not
`None`, so the guard does not fire) and invokes the staircase engine; with a
position at a small loss (`pct_profit = −0.1%`, inside the hard-stop bound)
and past warm-up, the zero ATR makes the buffer cutoff `0` and the engine
returns `close = True` — it does not decline to compute. -/
theorem C8_atr_zero_counterexample :
    manage_trade_step (some [("ATR", [("value", 0)])])
        ⟨"EURUSD", "BUY", 100, some 95⟩ ⟨999/10, 999/10⟩
        ⟨some 0, some [1, 2, 3, 4, 5, 6, 7, 8, 9]⟩
        ⟨1/200, 3/2, 4, 9, 1/1000, 2, 1/10⟩ = some (none, true) := by
  norm_num [manage_trade_step, manage_trade_atr, List.lookup,
    sl_trailing_staircase, pct_profit_of, price_now_of]

/-- C8 amended: a missing (`None`) ATR makes the caller `manage_trade`
return before the engine runs, but an ATR of `0` is passed through: past the
warm-up hold, any negative profit makes the engine emit `close = True`
(through the hard stop or the zero buffer cutoff) instead of declining. -/
theorem C8_atr_missing_guard_amended :
    (∀ pm_result pos tick cached config, manage_trade_atr pm_result = none →
      manage_trade_step pm_result pos tick cached config = none) ∧
    (∀ pos tick cached (config : SLConfig), pct_profit_of pos tick < 0 →
      ¬ (cached.profit_chain.getD []).length < config.min_ticks_to_hold →
      sl_trailing_staircase pos tick 0 cached config = (none, true)) := by
  constructor
  · intro pm_result pos tick cached config h
    unfold manage_trade_step
    rw [h]
  · intro pos tick cached config hneg hticks
    unfold sl_trailing_staircase
    by_cases hhard : pct_profit_of pos tick < -config.max_loss_decimal
    · rw [if_pos hhard]
    · rw [if_neg hhard, if_neg hticks]
      have hcut : -(0 : ℚ) * config.initial_sl_buffer_atr / pos.price_open = 0 := by
        norm_num
      rw [hcut, if_pos hneg]

/-- Witness for C8's amended claim: the missing-ATR guard at a concrete
empty dispatch result, and the zero-ATR close at the counterexample's
position. -/
theorem C8_atr_missing_guard_witness :
    manage_trade_step none ⟨"EURUSD", "BUY", 100, some 95⟩ ⟨999/10, 999/10⟩
      ⟨none, none⟩ ⟨1/200, 3/2, 4, 9, 1/1000, 2, 1/10⟩ = none ∧
    sl_trailing_staircase ⟨"EURUSD", "BUY", 100, some 95⟩ ⟨999/10, 999/10⟩ 0
      ⟨some 0, some [1, 2, 3, 4, 5, 6, 7, 8, 9]⟩
      ⟨1/200, 3/2, 4, 9, 1/1000, 2, 1/10⟩ = (none, true) :=
  ⟨C8_atr_missing_guard_amended.1 none _ _ _ _ rfl,
    C8_atr_missing_guard_amended.2 _ _ _ _
      (by norm_num [pct_profit_of, price_now_of]) (by norm_num)⟩

/-! ## C2 — the volatility-ladder scenario hits the unit mismatch -/

/-- The spec's risk profile: 1m 0.1%, 5m 0.3%, 15m 0.8%, 1h 2%, 1d 5%. -/
def c2profile : RiskProfile :=
  [("1m", ⟨1/10⟩), ("5m", ⟨3/10⟩), ("15m", ⟨8/10⟩), ("1h", ⟨2⟩), ("1d", ⟨5⟩)]

/-- C2: at the spec's scenario (BUY, `open_price = 10000`, tick `10060`, a
0.6% move) the claim demands `TRAIL_5M` with stop `10010` and no
take-profit; the code instead returns `(None, True)` — full take-profit —
because the thresholds are divided by `100` (fractions, `1d = 0.05`) while
`move_pct` is multiplied by `100` (percent, `0.6`), so the very first rung
fires. The spec is the consistent-units intent; the code's comparison mixes
units (and `calculate_trail` would divide the already-divided trail value by
`100` again). -/
theorem C2_ladder_unit_bug :
    trailing_staircase (some [("BTCUSD", c2profile)]) "BTCUSD"
        ⟨"BUY", 10000⟩ ⟨10060, 10061⟩ = (none, true) ∧
    trailing_staircase (some [("BTCUSD", c2profile)]) "BTCUSD"
        ⟨"BUY", 10000⟩ ⟨10060, 10061⟩ ≠ (some 10010, false) := by
  have hp : load_risk_profile (some [("BTCUSD", c2profile)]) "BTCUSD" =
      some c2profile := rfl
  have h1 : List.lookup "1m" c2profile = some ⟨1/10⟩ := rfl
  have h2 : List.lookup "5m" c2profile = some ⟨3/10⟩ := rfl
  have h3 : List.lookup "15m" c2profile = some ⟨8/10⟩ := rfl
  have h4 : List.lookup "1h" c2profile = some ⟨2⟩ := rfl
  have h5 : List.lookup "1d" c2profile = some ⟨5⟩ := rfl
  have h : trailing_staircase (some [("BTCUSD", c2profile)]) "BTCUSD"
      ⟨"BUY", 10000⟩ ⟨10060, 10061⟩ = (none, true) := by
    rw [trailing_staircase, hp]
    simp only [h1, h2, h3, h4, h5, List.isEmpty]
    norm_num [ladder_walk, calculate_trail, c2profile]
  exact ⟨h, by rw [h]; simp⟩

/-! ## C9 — the loader silently substitutes the `defaults` profile -/

/-- A concrete `defaults` risk profile (same five timeframes). -/
def c9profile : RiskProfile :=
  [("1m", ⟨1/10⟩), ("5m", ⟨3/10⟩), ("15m", ⟨8/10⟩), ("1h", ⟨2⟩), ("1d", ⟨5⟩)]

/-- C9 counterexample: the symbol `"EURUSD"` has no profile of its own, yet
`load_risk_profile` silently returns the file's `defaults` entry
(`profile.get(symbol) or profile.get('defaults')`), and `trailing_staircase`
proceeds with it — it does not return `(None, False)`. -/
theorem C9_defaults_substituted :
    load_risk_profile (some [("defaults", c9profile)]) "EURUSD" =
      some c9profile ∧
    trailing_staircase (some [("defaults", c9profile)]) "EURUSD"
        ⟨"BUY", 10000⟩ ⟨10060, 10061⟩ = (none, true) ∧
    trailing_staircase (some [("defaults", c9profile)]) "EURUSD"
        ⟨"BUY", 10000⟩ ⟨10060, 10061⟩ ≠ (none, false) := by
  have hp : load_risk_profile (some [("defaults", c9profile)]) "EURUSD" =
      some c9profile := rfl
  have h1 : List.lookup "1m" c9profile = some ⟨1/10⟩ := rfl
  have h2 : List.lookup "5m" c9profile = some ⟨3/10⟩ := rfl
  have h3 : List.lookup "15m" c9profile = some ⟨8/10⟩ := rfl
  have h4 : List.lookup "1h" c9profile = some ⟨2⟩ := rfl
  have h5 : List.lookup "1d" c9profile = some ⟨5⟩ := rfl
  have h : trailing_staircase (some [("defaults", c9profile)]) "EURUSD"
      ⟨"BUY", 10000⟩ ⟨10060, 10061⟩ = (none, true) := by
    rw [trailing_staircase, hp]
    simp only [h1, h2, h3, h4, h5, List.isEmpty]
    norm_num [ladder_walk, calculate_trail, c9profile]
  exact ⟨hp, h, by rw [h]; simp⟩

/-- C9 amended: `trailing_staircase` returns `(None, False)` when the loader
yields no profile at all (file unreadable/unparseable/empty, and neither the
symbol nor `defaults` usable); but when only the symbol's entry is missing
and a `defaults` entry exists, the loader silently substitutes it. -/
theorem C9_missing_profile_amended :
    (∀ file symbol pos tick, load_risk_profile file symbol = none →
      trailing_staircase file symbol pos tick = (none, false)) ∧
    (∀ (profiles : RiskProfilesFile) symbol p,
      List.lookup symbol profiles = none →
      List.lookup "defaults" profiles = some p →
      load_risk_profile (some profiles) symbol = some p) := by
  constructor
  · intro file symbol pos tick h
    unfold trailing_staircase
    rw [h]
  · intro profiles symbol p hsym hdef
    unfold load_risk_profile
    have hne : profiles.isEmpty = false := by
      cases profiles with
      | nil => simp [List.lookup] at hdef
      | cons a l => rfl
    simp [hne, hsym, hdef]

/-- Witness for C9's amended claim: an unparseable file declines, and a
missing symbol with a `defaults` entry substitutes. -/
theorem C9_missing_profile_witness :
    trailing_staircase none "EURUSD" ⟨"BUY", 10000⟩ ⟨10060, 10061⟩ =
      (none, false) ∧
    load_risk_profile (some [("defaults", c9profile)]) "GBPUSD" =
      some c9profile :=
  ⟨C9_missing_profile_amended.1 none "EURUSD" _ _ rfl,
    C9_missing_profile_amended.2 _ "GBPUSD" _ rfl rfl⟩

/-! ## C1 — the liquidation reset does not clear `CLOSE_SIGNAL` -/

/-- The `PROFIT_RECORD_TRACK` initialisation never touches `CLOSE_SIGNAL`. -/
theorem ensure_prt_close_signal (snap : SideSnap) (hist : HistSide) :
    (ensure_prt snap hist).close_signal = hist.close_signal := by
  unfold ensure_prt; split <;> rfl

/-- The `LOSS_RECORD_TRACK` initialisation never touches `CLOSE_SIGNAL`. -/
theorem ensure_lrt_close_signal (snap : SideSnap) (hist : HistSide) :
    (ensure_lrt snap hist).close_signal = hist.close_signal := by
  unfold ensure_lrt; split <;> rfl

/-- The `PROFIT_GOAL` initialisation never touches `CLOSE_SIGNAL`. -/
theorem ensure_goal_close_signal (c : ℚ) (snap : SideSnap) (hist : HistSide) :
    (ensure_goal c snap hist).close_signal = hist.close_signal := by
  unfold ensure_goal; split <;> rfl

/-- The `TRAILING_PROFIT` initialisation never touches `CLOSE_SIGNAL`. -/
theorem ensure_trail_close_signal (t : ℚ) (snap : SideSnap) (hist : HistSide) :
    (ensure_trail t snap hist).close_signal = hist.close_signal := by
  unfold ensure_trail; split <;> rfl

/-- The key-initialisation steps never touch the `CLOSE_SIGNAL` field. -/
theorem ensure_extreme_keys_close_signal (c t : ℚ) (snap : SideSnap)
    (hist : HistSide) :
    (ensure_extreme_keys c t snap hist).close_signal = hist.close_signal := by
  unfold ensure_extreme_keys
  rw [ensure_trail_close_signal, ensure_goal_close_signal,
    ensure_lrt_close_signal, ensure_prt_close_signal]

/-- A historical side record carrying a `True` close signal from the
previous cycle, with open size `2`. -/
def c1hist : HistSide :=
  ⟨some 2, some 2, some 100, some 99, some 3, some "", some 5, some 7,
    some (-2), some 10, some 1, some false, some true, some true⟩

/-- The snapshot of the same side after full liquidation (all aggregates
zero, no current price). -/
def c1snap : SideSnap := ⟨0, 0, 0, none, 0, "", 0⟩

/-- C1 counterexample: the side's `size_sum` goes from `2` to `0` between
two consecutive merges, yet the merged record still has
`CLOSE_SIGNAL = True` — the reset branch clears the extrema, the goals,
`GOAL_MET` and `TRAILING_CROSSED`, but never touches `CLOSE_SIGNAL`,
contradicting the claim that ALL boolean flags become `False`. -/
theorem C1_close_signal_survives_reset :
    c1hist.size_sum = some 2 ∧ c1snap.size_sum = 0 ∧
    (merge_side (1/20) (1/200) c1snap c1hist).close_signal = some true := by
  refine ⟨rfl, rfl, ?_⟩
  unfold merge_side merge_flags
  rw [if_pos (show c1snap.size_sum = 0 from rfl)]
  exact (ensure_extreme_keys_close_signal (1/20) (1/200) c1snap c1hist).trans rfl

/-- C1 amended: when a side's `size_sum` reaches `0` at merge time, the
resulting record has `profit_record_track`, `loss_record_track`,
`profit_goal` and `trailing_profit` all `0` and `GOAL_MET` and
`TRAILING_CROSSED` `False` — but `CLOSE_SIGNAL` retains its previous value
unchanged. -/
theorem C1_reset_law_amended (c t : ℚ) (snap : SideSnap) (hist : HistSide)
    (h : snap.size_sum = 0) :
    (merge_side c t snap hist).profit_record_track = some 0 ∧
    (merge_side c t snap hist).loss_record_track = some 0 ∧
    (merge_side c t snap hist).profit_goal = some 0 ∧
    (merge_side c t snap hist).trailing_profit = some 0 ∧
    (merge_side c t snap hist).goal_met = some false ∧
    (merge_side c t snap hist).trailing_crossed = some false ∧
    (merge_side c t snap hist).close_signal = hist.close_signal := by
  unfold merge_side merge_flags
  rw [if_pos h]
  exact ⟨rfl, rfl, rfl, rfl, rfl, rfl,
    ensure_extreme_keys_close_signal c t snap hist⟩

/-- Witness for C1's amended claim at the counterexample input. -/
theorem C1_reset_law_witness :
    c1snap.size_sum = 0 ∧
    (merge_side (1/20) (1/200) c1snap c1hist).goal_met = some false ∧
    (merge_side (1/20) (1/200) c1snap c1hist).close_signal =
      c1hist.close_signal :=
  ⟨rfl, (C1_reset_law_amended (1/20) (1/200) c1snap c1hist rfl).2.2.2.2.1,
    (C1_reset_law_amended (1/20) (1/200) c1snap c1hist rfl).2.2.2.2.2.2⟩

/-! ## C5 — the close-signal conjunction -/

/-- C5: after merging a side whose `size_sum` is non-zero, `GOAL_MET` is
exactly `unrealized_profit ≥ profit_goal`, `TRAILING_CROSSED` exactly
`unrealized_profit ≥ trailing_profit` (both targets freshly recomputed as
`size_sum · avg_price · threshold`), and `CLOSE_SIGNAL` is exactly their
conjunction — true if and only if both flags hold. -/
theorem C5_close_signal_conjunction (c t : ℚ) (snap : SideSnap)
    (hist : HistSide) (h : snap.size_sum ≠ 0) :
    (merge_side c t snap hist).goal_met =
      some (decide (snap.unrealized_profit ≥
        snap.size_sum * snap.avg_price * c)) ∧
    (merge_side c t snap hist).trailing_crossed =
      some (decide (snap.unrealized_profit ≥
        snap.size_sum * snap.avg_price * t)) ∧
    (merge_side c t snap hist).close_signal =
      some (decide (snap.unrealized_profit ≥
          snap.size_sum * snap.avg_price * c) &&
        decide (snap.unrealized_profit ≥
          snap.size_sum * snap.avg_price * t)) := by
  unfold merge_side merge_flags
  rw [if_neg h]
  exact ⟨rfl, rfl, rfl⟩

/-- A populated historical record for the C5 witness. -/
def c5hist : HistSide :=
  ⟨some 1, some 1, some 80, some 81, some 2, some "", some 6, some 4,
    some 0, some 4, some 10, some false, some false, some false⟩

/-- The snapshot of the spec's example: invested notional `1 · 80 = 80`,
`unrealized_profit = 5`; with `close_profit_threshold = 1/20` the profit
goal is `4` and with `trailing_profit_threshold = 1/8` the trailing bar is
`10`. -/
def c5snap : SideSnap := ⟨1, 1, 80, some 81, 5, "", 7⟩

/-- Witness for C5 at the spec's concrete example: `unrealized_profit = 5`,
`profit_goal = 4`, `trailing_profit = 10` gives `GOAL_MET = True`,
`TRAILING_CROSSED = False`, `CLOSE_SIGNAL = False`. -/
theorem C5_close_signal_witness :
    (merge_side (1/20) (1/8) c5snap c5hist).goal_met = some true ∧
    (merge_side (1/20) (1/8) c5snap c5hist).trailing_crossed = some false ∧
    (merge_side (1/20) (1/8) c5snap c5hist).close_signal = some false := by
  have h := C5_close_signal_conjunction (1/20) (1/8) c5snap c5hist
    (by norm_num [c5snap])
  refine ⟨?_, ?_, ?_⟩
  · rw [h.1]; norm_num [c5snap]
  · rw [h.2.1]; norm_num [c5snap]
  · rw [h.2.2]; norm_num [c5snap]

/-! ## C6 — stop-loss monotonicity -/

/-- For a BUY position with a set (truthy) stop-loss, any recommendation of
`simple_manage_sl` is strictly higher than the current stop-loss. -/
theorem simple_manage_sl_buy_improves (pos : SLPos) (tick : Tick) (atr : ℚ)
    (config : SLConfig) (s r : ℚ) (htype : pos.type = "BUY")
    (hsl : pos.sl = some s) (hs : s ≠ 0)
    (h : simple_manage_sl pos tick atr config = some r) : s < r := by
  unfold simple_manage_sl at h
  rw [htype, hsl] at h
  rw [if_pos (show (("BUY" : String) == "BUY") = true from rfl)] at h
  simp only [qTruthy, ne_eq, hs, not_false_eq_true, Option.getD_some] at h
  split at h
  · split at h
    · rename_i hcond
      simp only [decide_True, Bool.not_true, Bool.false_or,
        decide_eq_true_eq] at hcond
      simp only [Option.some.injEq] at h
      subst h
      exact hcond
    · exact absurd h (by simp)
  · exact absurd h (by simp)

/-- For a SELL position with a set (truthy) stop-loss, any recommendation of
`simple_manage_sl` is strictly lower than the current stop-loss. -/
theorem simple_manage_sl_sell_improves (pos : SLPos) (tick : Tick) (atr : ℚ)
    (config : SLConfig) (s r : ℚ) (htype : pos.type = "SELL")
    (hsl : pos.sl = some s) (hs : s ≠ 0)
    (h : simple_manage_sl pos tick atr config = some r) : r < s := by
  unfold simple_manage_sl at h
  rw [htype, hsl] at h
  rw [if_neg (show ¬ (("SELL" : String) == "BUY") = true from by decide)] at h
  simp only [qTruthy, ne_eq, hs, not_false_eq_true, Option.getD_some] at h
  split at h
  · split at h
    · rename_i hcond
      simp only [decide_True, Bool.not_true, Bool.false_or,
        decide_eq_true_eq] at hcond
      simp only [Option.some.injEq] at h
      subst h
      exact hcond
    · exact absurd h (by simp)
  · exact absurd h (by simp)

/-- For a BUY MT5 position with a non-zero stop-loss, `manage_atr_sl` only
recommends strictly higher values. -/
theorem manage_atr_sl_buy_improves (pos : MTPos) (tick : Tick) (atr : ℚ)
    (config : SLConfig) (r : ℚ) (htype : pos.type = 0) (hs : pos.sl ≠ 0)
    (h : manage_atr_sl pos tick atr config = some r) : pos.sl < r := by
  unfold manage_atr_sl at h
  rw [htype] at h
  norm_num at h
  rcases h with ⟨h0 | hlt, hr⟩
  · exact absurd h0 hs
  · exact hr ▸ hlt

/-- One accepted step never lowers a positive BUY stop-loss, and keeps it
positive. -/
theorem sl_accept_step_le (pos : SLPos) (config : SLConfig)
    (htype : pos.type = "BUY") (s : ℚ) (hs : 0 < s) (ta : Tick × ℚ) :
    s ≤ sl_accept_step pos config s ta ∧ 0 < sl_accept_step pos config s ta := by
  unfold sl_accept_step
  rcases hm : simple_manage_sl { pos with sl := some s } ta.1 ta.2 config with
    _ | r
  · simp only [hm]
    exact ⟨le_refl s, hs⟩
  · simp only [hm]
    have hlt : s < r :=
      simple_manage_sl_buy_improves { pos with sl := some s } ta.1 ta.2 config
        s r htype rfl (ne_of_gt hs) hm
    exact ⟨le_of_lt hlt, lt_trans hs hlt⟩

/-- The head of a `scanl` is its initial value. -/
theorem head_of_scanl {α β : Type} (f : α → β → α) (b : α) (l : List β) :
    (List.scanl f b l).head? = some b := by
  cases l <;> rfl

/-- The accepted stop-loss sequence of a BUY position with a positive
initial stop-loss is non-decreasing over any tick/ATR sequence. -/
theorem sl_accept_scanl_chain (pos : SLPos) (config : SLConfig)
    (htype : pos.type = "BUY") :
    ∀ (ticks : List (Tick × ℚ)) (s : ℚ), 0 < s →
      (List.scanl (sl_accept_step pos config) s ticks).Chain' (· ≤ ·) := by
  intro ticks
  induction ticks with
  | nil => intro s hs; simp
  | cons ta ticks ih =>
    intro s hs
    rw [List.scanl_cons, List.singleton_append]
    refine List.chain'_cons'.mpr ⟨?_, ih _ (sl_accept_step_le pos config htype s hs ta).2⟩
    intro y hy
    rw [head_of_scanl] at hy
    cases hy
    exact (sl_accept_step_le pos config htype s hs ta).1

/-- C6: the break-even/ATR-trail sub-algorithm only recommends stop-losses
that strictly improve on a set stop-loss (higher for BUY, lower for SELL) —
both in `simple_manage_sl` and in `manage_atr_sl` — and consequently the
accepted stop-loss sequence of a BUY position with a positive stop-loss is
non-decreasing over any sequence of ticks. -/
theorem C6_stop_loss_monotonicity :
    (∀ (pos : SLPos) tick atr config (s r : ℚ), pos.type = "BUY" →
      pos.sl = some s → s ≠ 0 →
      simple_manage_sl pos tick atr config = some r → s < r) ∧
    (∀ (pos : SLPos) tick atr config (s r : ℚ), pos.type = "SELL" →
      pos.sl = some s → s ≠ 0 →
      simple_manage_sl pos tick atr config = some r → r < s) ∧
    (∀ (pos : MTPos) tick atr config (r : ℚ), pos.type = 0 → pos.sl ≠ 0 →
      manage_atr_sl pos tick atr config = some r → pos.sl < r) ∧
    (∀ (pos : SLPos) config (ticks : List (Tick × ℚ)) (s : ℚ),
      pos.type = "BUY" → 0 < s →
      (List.scanl (sl_accept_step pos config) s ticks).Chain' (· ≤ ·)) :=
  ⟨fun pos tick atr config s r h1 h2 h3 h4 =>
      simple_manage_sl_buy_improves pos tick atr config s r h1 h2 h3 h4,
    fun pos tick atr config s r h1 h2 h3 h4 =>
      simple_manage_sl_sell_improves pos tick atr config s r h1 h2 h3 h4,
    fun pos tick atr config r h1 h2 h3 =>
      manage_atr_sl_buy_improves pos tick atr config r h1 h2 h3,
    fun pos config ticks s h1 h2 => sl_accept_scanl_chain pos config h1 ticks s h2⟩

/-- Witness for C6 at a concrete favourable BUY tick: stop-loss `50`,
recommendation `110`, strictly higher. -/
theorem C6_stop_loss_monotonicity_witness :
    simple_manage_sl ⟨"EURUSD", "BUY", 100, some 50⟩ ⟨130, 130⟩ 10
      ⟨1/200, 3/2, 4, 9, 1/1000, 2, 1/10⟩ = some 110 ∧ (50 : ℚ) < 110 := by
  have hev : simple_manage_sl ⟨"EURUSD", "BUY", 100, some 50⟩ ⟨130, 130⟩ 10
      ⟨1/200, 3/2, 4, 9, 1/1000, 2, 1/10⟩ = some 110 := by
    norm_num [simple_manage_sl, price_now_of, qTruthy]
  exact ⟨hev, C6_stop_loss_monotonicity.1 ⟨"EURUSD", "BUY", 100, some 50⟩
    ⟨130, 130⟩ 10 ⟨1/200, 3/2, 4, 9, 1/1000, 2, 1/10⟩ 50 110 rfl rfl
    (by norm_num) hev⟩

/-! ## C7 — profit-chain bounding and de-duplication -/

/-- Appending with the de-duplication guard preserves pairwise-distinct
adjacency. -/
theorem chain_append_dedup_chain' (l : List ℚ) (r : ℚ)
    (h : l.Chain' (· ≠ ·)) : (chain_append_dedup l r).Chain' (· ≠ ·) := by
  unfold chain_append_dedup
  split
  · rename_i hcond
    rw [List.chain'_append]
    refine ⟨h, List.chain'_singleton r, ?_⟩
    intro x hx y hy
    simp only [List.head?_cons, Option.mem_def, Option.some.injEq] at hy
    subst hy
    rcases Bool.or_eq_true_iff.mp hcond with hemp | hlast
    · rw [List.isEmpty_iff] at hemp
      subst hemp
      simp at hx
    · intro hxy
      subst hxy
      rw [Option.mem_def] at hx
      exact absurd hx (by simpa using hlast)
  · exact h

/-- The truncation step keeps the chain within the bound (for a positive
bound, matching the Python slice semantics). -/
theorem chain_truncate_length (k : ℕ) (hk : k ≠ 0) (l : List ℚ) :
    (chain_truncate k l).length ≤ k := by
  unfold chain_truncate pyLastSlice
  rw [if_neg hk]
  split
  · rw [List.length_drop]
    omega
  · omega

/-- The truncation step (a suffix) preserves pairwise-distinct adjacency. -/
theorem chain_truncate_chain' (k : ℕ) (l : List ℚ)
    (h : l.Chain' (· ≠ ·)) : (chain_truncate k l).Chain' (· ≠ ·) := by
  unfold chain_truncate pyLastSlice
  split
  · split
    · exact h
    · exact h.drop _
  · exact h

/-- One tracker update keeps the chain bounded by any positive
`max_chain_length` and adjacent-distinct. -/
theorem update_chain_invariant (p : TrackedPos) (profit_step : ℚ) (k : ℕ)
    (hk : k ≠ 0) (hne : (p.profit_chain.getD []).Chain' (· ≠ ·)) :
    ((update_position_profit_chain p profit_step k).profit_chain.getD []).length ≤ k ∧
    ((update_position_profit_chain p profit_step k).profit_chain.getD []).Chain'
      (· ≠ ·) := by
  unfold update_position_profit_chain
  exact ⟨chain_truncate_length k hk _,
    chain_truncate_chain' k _ (chain_append_dedup_chain' _ _ hne)⟩

/-- The invariant carried through any sequence of updates. -/
theorem apply_profit_updates_invariant (prices : List (Option ℚ))
    (profit_step : ℚ) :
    ∀ p : TrackedPos, (p.profit_chain.getD []).length ≤ 10 →
      (p.profit_chain.getD []).Chain' (· ≠ ·) →
      ((apply_profit_updates p prices profit_step 10).profit_chain.getD []).length ≤ 10 ∧
      ((apply_profit_updates p prices profit_step 10).profit_chain.getD []).Chain'
        (· ≠ ·) := by
  induction prices with
  | nil => intro p hlen hne; exact ⟨hlen, hne⟩
  | cons pr rest ih =>
    intro p hlen hne
    have hstep := update_chain_invariant { p with price_current := pr }
      profit_step 10 (by norm_num) hne
    exact ih _ hstep.1 hstep.2

/-- C7: starting from a fresh position (no chain yet), any sequence of
`update_position_profit_chain` calls with `max_chain_length = 10` (the
price current between calls arbitrary) leaves a profit chain of at most 10
entries with no two adjacent entries equal. -/
theorem C7_profit_chain_bounded_dedup (p : TrackedPos)
    (prices : List (Option ℚ)) (profit_step : ℚ)
    (hfresh : p.profit_chain = none) :
    ((apply_profit_updates p prices profit_step 10).profit_chain.getD []).length ≤ 10 ∧
    ((apply_profit_updates p prices profit_step 10).profit_chain.getD []).Chain'
      (· ≠ ·) :=
  apply_profit_updates_invariant prices profit_step p
    (by rw [hfresh]; simp) (by rw [hfresh]; exact List.chain'_nil)

/-- Witness for C7: three observations on a fresh BUY position. -/
theorem C7_profit_chain_witness :
    ((apply_profit_updates ⟨"BUY", some 100, some 101, none, none⟩
        [some 101, some 101, some 102] (1/100) 10).profit_chain.getD []).length ≤ 10 ∧
    ((apply_profit_updates ⟨"BUY", some 100, some 101, none, none⟩
        [some 101, some 101, some 102] (1/100) 10).profit_chain.getD []).Chain'
      (· ≠ ·) :=
  C7_profit_chain_bounded_dedup ⟨"BUY", some 100, some 101, none, none⟩
    [some 101, some 101, some 102] (1/100) rfl

end AlgoOne
